import Mathlib

/-!
Formal model of the gitlab-mr-flow VS Code extension (src/extension.js).

The extension orchestrates a linear sequence of git operations (current-branch
check, remote resolution from .git/config, target-branch resolution, fetch,
merge, push with merge-request options, URL extraction, browser open, checkout).
We embed each helper function and the command handler as executable Lean
definitions over explicit command results and user choices, and prove theorems
about the resulting behavior.

Modelling conventions:
* External command invocations are modelled by `CmdResult` values supplied in
  an `Env`; JavaScript string operations (startsWith, trim, split, includes,
  the regexes used by the source) are re-implemented over `List Char` with
  JS semantics (ASCII whitespace for the regex class, leftmost match,
  greedy/lazy behavior of the concrete patterns used).
* `.git/config` parsing (fs.readFile plus the remote-section regexes) is
  modelled at its output boundary: `Env` carries the two parsed entry lists
  (the entries of the origin-regex pass and of the any-remote-regex pass),
  and `getOrigin` embeds everything the source does with them.
* Interactive quick-picks are modelled by an optional index into the displayed
  list (`none` = user cancelled / dismissed the prompt).
* The command handler is modelled on its repository-handle path
  (`repository.rootUri` provided), producing the ordered list of observable
  actions (git commands, filesystem checks, config reads, URL opens, user
  notifications).
-/

namespace MrFlow

/-- ASCII whitespace, matching the characters the JS regex class `\s` can see
in the outputs handled here. -/
def isWs (c : Char) : Bool :=
  c = ' ' || c = '\t' || c = '\n' || c = '\r' || c = '\x0b' || c = '\x0c'

/-- `starts p l` : `p` is a prefix of the character list `l` (case-sensitive),
mirroring JS `String.prototype.startsWith` / literal regex prefixes. -/
def starts : List Char → List Char → Bool
  | [], _ => true
  | _ :: _, [] => false
  | p :: ps, c :: cs => (p == c) && starts ps cs

/-- Case-insensitive prefix test, mirroring a literal regex prefix under the
`i` flag. -/
def ciStarts : List Char → List Char → Bool
  | [], _ => true
  | _ :: _, [] => false
  | p :: ps, c :: cs => (p.toLower == c.toLower) && ciStarts ps cs

/-- Substring containment, mirroring JS `String.prototype.includes`. -/
def containsSub (needle : List Char) : List Char → Bool
  | [] => needle.isEmpty
  | c :: rest => starts needle (c :: rest) || containsSub needle rest

/-- `strContains hay needle` : JS `hay.includes(needle)`. -/
def strContains (hay needle : String) : Bool :=
  containsSub needle.data hay.data

/-- JS `String.prototype.startsWith`: `startsWithStr p s` is `s.startsWith(p)`. -/
def startsWithStr (p s : String) : Bool :=
  starts p.data s.data

/-- JS `String.prototype.endsWith`: `endsStr suf s` is `s.endsWith(suf)`. -/
def endsStr (suf s : String) : Bool :=
  starts suf.data.reverse s.data.reverse

/-- Trim on character lists (both ends), used for JS `String.prototype.trim`. -/
def trimChars (cs : List Char) : List Char :=
  ((cs.dropWhile isWs).reverse.dropWhile isWs).reverse

/-- JS `String.prototype.trim` (restricted to ASCII whitespace). -/
def jsTrim (s : String) : String :=
  String.mk (trimChars s.data)

/-- Accumulating splitter for `splitLines`. -/
def splitLinesAux : List Char → List Char → List (List Char)
  | [], acc => [acc.reverse]
  | c :: rest, acc =>
      if c = '\n' then acc.reverse :: splitLinesAux rest []
      else splitLinesAux rest (c :: acc)

/-- JS `str.split('\n')`. -/
def splitLines (s : String) : List String :=
  (splitLinesAux s.data []).map String.mk

/-- Result of one external command invocation, as returned by execa with
`reject: false` (src/extension.js `runGitCommand`). -/
structure CmdResult where
  stdout : String
  stderr : String
  exitCode : Int
deriving Repr, DecidableEq

/-- A remote entry parsed from `.git/config`: `{ remoteName, remoteUrl }`
(src/extension.js `getOrigin`). -/
structure Remote where
  remoteName : String
  remoteUrl : String
deriving Repr, DecidableEq

/-- `getCurrentBranch` (src/extension.js lines 217-242): runs
`git branch --show-current`; on exit code 0 with nonempty stdout returns the
trimmed branch name, erroring on an empty trimmed result (detached HEAD);
otherwise errors. -/
def getCurrentBranch (r : CmdResult) : Except String String :=
  if r.exitCode = 0 ∧ r.stdout ≠ "" then
    let currentBranch := jsTrim r.stdout
    if currentBranch ≠ "" then Except.ok currentBranch
    else Except.error "Could not determine current branch (empty output). Possibly in detached HEAD state?"
  else Except.error "Failed to get current branch name."

/-- The first entry of `rs` whose name equals `n`
(JS `rs.find(r => r.remoteName === n)` in `getOrigin`). -/
def findByName (rs : List Remote) (n : String) : Option Remote :=
  rs.find? (fun r => r.remoteName == n)

/-- The quick-pick items shown for a remote list: label is the remote name,
description the URL (src/extension.js lines 88 and 108). -/
def originChoices (rs : List Remote) : List (String × String) :=
  rs.map (fun r => (r.remoteName, r.remoteUrl))

/-- Quick-pick over a remote list followed by the source's lookup of the
selected item by its label (src/extension.js lines 88-100 and 108-120):
on cancellation the given error is thrown; on a selection the FIRST entry
whose name equals the selected label is returned. -/
def promptAndFind (rs : List Remote) (pick : Option Nat) (cancelMsg : String) :
    Except String Remote :=
  match pick with
  | none => Except.error cancelMsg
  | some i =>
    match rs.get? i with
    | none => Except.error cancelMsg
    | some sel =>
      match findByName rs sel.remoteName with
      | some r => Except.ok r
      | none => Except.error cancelMsg

/-- `getOrigin` (src/extension.js lines 50-122), from the two parsed entry
lists of `.git/config`: prefer the `[remote "origin"]` entries; if none, use
the entries of any remote section; zero entries errors, one entry is returned
directly, several prompt the user. -/
def getOrigin (originRemotes allRemotes : List Remote) (pick : Option Nat) :
    Except String Remote :=
  match originRemotes with
  | [] =>
    match allRemotes with
    | [] => Except.error "No remote URLs found in .git/config."
    | [r] => Except.ok r
    | _ => promptAndFind allRemotes pick "Remote selection cancelled by user."
  | [r] => Except.ok r
  | _ => promptAndFind originRemotes pick "Origin selection cancelled by user."

/-- Leftmost match of the regex `/HEAD branch:\s*(\S+)/` over a character
list: at the first position where the literal `HEAD branch:` is followed
(after optional whitespace) by at least one non-whitespace character, the
maximal non-whitespace token is captured; positions where the tail is all
whitespace are skipped, as the regex engine would. -/
def findHeadAux : List Char → Option String
  | [] => none
  | c :: rest =>
    if starts "HEAD branch:".data (c :: rest) then
      let tok := (((c :: rest).drop 12).dropWhile isWs).takeWhile (fun ch => !(isWs ch))
      if tok = [] then findHeadAux rest else some (String.mk tok)
    else findHeadAux rest

/-- `stdout.match(/HEAD branch:\s*(\S+)/)` capture group
(src/extension.js line 139). -/
def findHeadBranch (s : String) : Option String :=
  findHeadAux s.data

/-- The branch returned by attempt 1 of `getTargetBranch`
(src/extension.js lines 136-158): on exit code 0 with nonempty stdout, the
captured HEAD branch provided it is not the sentinel `(unknown)`; otherwise
nothing, sending the flow to the fallback. -/
def headAttempt (r : CmdResult) : Option String :=
  if r.exitCode = 0 ∧ r.stdout ≠ "" then
    match findHeadBranch r.stdout with
    | some b => if b ≠ "(unknown)" then some b else none
    | none => none
  else none

/-- One line of `git branch -r` output against the regex
`/^\s*origin\/(\S+)/` (src/extension.js line 167): leading whitespace, the
literal `origin/`, then the captured non-whitespace token. -/
def parseOriginLine (line : String) : Option String :=
  let cs := line.data.dropWhile isWs
  if starts "origin/".data cs then
    let tok := (cs.drop 7).takeWhile (fun ch => !(isWs ch))
    if tok = [] then none else some (String.mk tok)
  else none

/-- The candidate list of the fallback (src/extension.js lines 166-175):
split stdout into lines, skip lines containing `->`, keep the `origin/`
branch captures. The selected remote's name plays no part. -/
def parseRemoteBranches (out : String) : List String :=
  (splitLines out).filterMap (fun line =>
    if strContains line "->" then none else parseOriginLine line)

/-- The body of the fallback of `getTargetBranch` before its catch block
(src/extension.js lines 163-198): list remote branches, build candidates,
throw when the listing failed or no candidate exists, otherwise prompt the
user (cancellation throws). -/
def fallbackTargetRaw (branchR : CmdResult) (pick : Option Nat) :
    Except String String :=
  if branchR.exitCode = 0 ∧ branchR.stdout ≠ "" then
    let remoteBranches := parseRemoteBranches branchR.stdout
    if remoteBranches = [] then
      Except.error "No remote branches found for origin."
    else
      match pick with
      | none => Except.error "Target branch selection cancelled by user."
      | some i =>
        match remoteBranches.get? i with
        | some b => Except.ok b
        | none => Except.error "Target branch selection cancelled by user."
  else Except.error "Could not list remote branches using \x27git branch -r\x27."

/-- The catch block of `getTargetBranch` (src/extension.js lines 200-208):
user cancellations are re-thrown verbatim, every other error is replaced by
the generic failure message. -/
def wrapTargetError (e : String) : String :=
  if strContains e "cancelled by user" then e
  else "Failed to determine target branch."

/-- The fallback of `getTargetBranch` as observed by its caller: the raw
fallback with its errors filtered through the catch block. -/
def fallbackTarget (branchR : CmdResult) (pick : Option Nat) :
    Except String String :=
  match fallbackTargetRaw branchR pick with
  | Except.ok b => Except.ok b
  | Except.error e => Except.error (wrapTargetError e)

/-- `getTargetBranch` (src/extension.js lines 132-209): the branch advertised
by `git remote show` when usable, else the interactive fallback over
`git branch -r`. -/
def getTargetBranch (remoteShow branchR : CmdResult) (pick : Option Nat) :
    Except String String :=
  match headAttempt remoteShow with
  | some b => Except.ok b
  | none => fallbackTarget branchR pick

/-- `mergeResult.stderr || mergeResult.stdout || ''`
(src/extension.js line 341): stderr when nonempty, else stdout. -/
def mergeErrorOutput (r : CmdResult) : String :=
  if r.stderr ≠ "" then r.stderr
  else if r.stdout ≠ "" then r.stdout
  else ""

/-- The argument list of the push command (src/extension.js lines 363-371). -/
def pushArgs (remoteName currentBranch targetBranch : String) : List String :=
  ["push", remoteName, currentBranch,
   "-o", "merge_request.create",
   "-o", "merge_request.target=" ++ targetBranch,
   "-o", "merge_request.remove_source_branch=false",
   "-o", "merge_request.title=" ++ currentBranch]

/-- The values carried by `-o` flags of a git argument list. -/
def extractPushOptions : List String → List String
  | [] => []
  | [_] => []
  | a :: b :: rest =>
    if a == "-o" then b :: extractPushOptions rest
    else extractPushOptions (b :: rest)

/-- At the current position, the part `(https?:\/\/[^\s]+)` of the MR URL
regex under the `i` flag: the scheme matched case-insensitively, then the
maximal nonempty run of non-whitespace; the capture keeps the original
characters. -/
def matchScheme (cs : List Char) : Option (List Char) :=
  if ciStarts "https://".data cs then
    let tok := (cs.drop 8).takeWhile (fun ch => !(isWs ch))
    if tok = [] then none else some (cs.take 8 ++ tok)
  else if ciStarts "http://".data cs then
    let tok := (cs.drop 7).takeWhile (fun ch => !(isWs ch))
    if tok = [] then none else some (cs.take 7 ++ tok)
  else none

/-- Leftmost match of `/remote:\s+(https?:\/\/[^\s]+)/i` over a character
list (src/extension.js lines 380-381): at each position, the literal
`remote:` (case-insensitively), at least one whitespace character, then the
scheme-led URL token; the capture group is returned. -/
def findMrUrlAux : List Char → Option String
  | [] => none
  | c :: rest =>
    if ciStarts "remote:".data (c :: rest) then
      let after := (c :: rest).drop 7
      if after.takeWhile isWs = [] then findMrUrlAux rest
      else
        match matchScheme (after.dropWhile isWs) with
        | some url => some (String.mk url)
        | none => findMrUrlAux rest
    else findMrUrlAux rest

/-- `output.match(urlRegex)` capture group over the combined push output. -/
def findMrUrl (s : String) : Option String :=
  findMrUrlAux s.data

/-- The constructed fallback listing URL (src/extension.js lines 399-400):
strip a trailing `.git` from the remote URL and append the fixed
merge-requests listing path suffix. -/
def constructMrUrl (remoteUrl : String) : String :=
  let baseUrl :=
    if endsStr ".git" remoteUrl then
      String.mk (remoteUrl.data.take (remoteUrl.data.length - 4))
    else remoteUrl
  baseUrl ++ "/-/merge_requests"

/-- An observable action of the command handler, in order of occurrence:
git command invocations, the `.git` existence check, `.git/config` reads,
`vscode.env.openExternal` calls, and user-facing notifications. -/
inductive Action where
  | showInfo (msg : String)
  | showError (msg : String)
  | showWarning (msg : String)
  | runGit (args : List String)
  | checkDotGit
  | readGitConfig
  | openExternal (url : String)
deriving Repr, DecidableEq

/-- Whether an action opens a URL in the browser. -/
def Action.isOpenUrl : Action → Bool
  | .openExternal _ => true
  | _ => false

/-- Whether an action is a git invocation whose first argument is `v`. -/
def isGitVerb (v : String) : Action → Bool
  | .runGit (w :: _) => w == v
  | _ => false

/-- The environment of one command invocation: the results every external
command would produce, the filesystem state, the parsed `.git/config` remote
entries, the user's quick-pick choices, and whether `openExternal`
succeeds. -/
structure Env where
  currentBranchResult : CmdResult
  dotGitExists : Bool
  originRemotes : List Remote
  allRemotes : List Remote
  originPick : Option Nat
  remoteShowResult : CmdResult
  branchRResult : CmdResult
  targetPick : Option Nat
  fetchResult : CmdResult
  mergeResult : CmdResult
  pushResult : CmdResult
  checkoutResult : CmdResult
  openOk : Bool

/-- Error message of the branch naming check (src/extension.js line 297). -/
def rejectMsg : String :=
  "Merge Requests can only be created from feature branches with the \"feat\" prefix. e.g. feature/abc"

/-- Conflict notification (src/extension.js line 345). -/
def conflictMsg : String :=
  "Merge conflicts detected. Please resolve them manually (e.g., using VS Code\x27s Source Control view), commit the merge, and then run the command again."

/-- Divergent-branches notification (src/extension.js line 350). -/
def divergentMsg : String :=
  "Error: Divergent branches. This shouldn\x27t happen with fetch+merge. Check Git status and Output channel."

/-- Generic merge failure notification (src/extension.js line 355). -/
def mergeFailedMsg (mergeRef : String) : String :=
  "Git merge of " ++ mergeRef ++ " failed. Check Output channel for details."

/-- Push failure notification (src/extension.js line 434). -/
def pushFailedMsg (exitCode : Int) : String :=
  "Failed to push or create Merge Request. Exit Code: " ++ toString exitCode ++ ". Check Output channel for details."

/-- Success notification after opening the found MR URL
(src/extension.js line 389). -/
def createdMsg (targetBranch : String) : String :=
  "Successfully created Merge Request targeting " ++ targetBranch ++ " and opened it in your browser."

/-- Notification when the found MR URL could not be opened
(src/extension.js line 393). -/
def pushedFailedOpenMsg (currentBranch targetBranch : String) : String :=
  "Successfully pushed " ++ currentBranch ++ " and initiated Merge Request creation targeting " ++ targetBranch ++ ". Failed to open URL."

/-- Notification after opening the constructed listing URL
(src/extension.js line 404). -/
def navigatedMsg (currentBranch : String) : String :=
  "Successfully pushed " ++ currentBranch ++ " and navigated to Merge Requests page in your browser. Local branch remains " ++ currentBranch ++ "."

/-- Notification when constructing or opening the listing URL failed
(src/extension.js line 408). -/
def pushOkNoMrMsg (currentBranch : String) : String :=
  "Push successful, but could not confirm Merge Request creation or open MR page. Please check GitLab manually. Local branch remains " ++ currentBranch ++ "."

/-- Notification after a successful switch back (src/extension.js line 420). -/
def switchedMsg (targetBranch : String) : String :=
  "Switched local branch to " ++ targetBranch ++ "."

/-- Warning when the switch back fails (src/extension.js line 424). -/
def switchFailedMsg (targetBranch : String) : String :=
  "Merge request created, but failed to switch local branch back to " ++ targetBranch ++ ". Check Output channel."

/-- The top-level catch of the handler (src/extension.js line 440). -/
def failMsg (e : String) : String :=
  "GitLab MR Flow failed: " ++ (if e ≠ "" then e else "Unknown error") ++ ". Check Output channel."

/-- Step 9 (src/extension.js lines 415-430): check out the target branch;
a failure is downgraded to a warning. -/
def checkoutPhase (env : Env) (targetBranch : String) : List Action :=
  Action.runGit ["checkout", targetBranch] ::
    (if env.checkoutResult.exitCode = 0 then [Action.showInfo (switchedMsg targetBranch)]
     else [Action.showWarning (switchFailedMsg targetBranch)])

/-- Step 8 (src/extension.js lines 377-411): scan the combined push output
for an MR URL. Found: open it (an open failure only changes the
notification) and continue with the checkout. Not found: re-read the config
via `getOrigin`, open the constructed listing URL, and return without any
checkout; a failure anywhere in that secondary attempt is reported and also
returns without a checkout. -/
def urlPhase (env : Env) (currentBranch targetBranch : String) : List Action :=
  match findMrUrl (env.pushResult.stdout ++ "\n" ++ env.pushResult.stderr) with
  | some mrUrl =>
      (Action.openExternal mrUrl ::
        (if env.openOk then [Action.showInfo (createdMsg targetBranch)]
         else [Action.showInfo (pushedFailedOpenMsg currentBranch targetBranch)])) ++
      checkoutPhase env targetBranch
  | none =>
      Action.readGitConfig ::
        match getOrigin env.originRemotes env.allRemotes env.originPick with
        | Except.error _ => [Action.showError (pushOkNoMrMsg currentBranch)]
        | Except.ok origin2 =>
            Action.openExternal (constructMrUrl origin2.remoteUrl) ::
              (if env.openOk then [Action.showInfo (navigatedMsg currentBranch)]
               else [Action.showError (pushOkNoMrMsg currentBranch)])

/-- Step 7 (src/extension.js lines 362-374, 432-436): push with the MR
options; a non-zero exit ends the flow with an error notification. -/
def pushPhase (env : Env) (r : Remote) (currentBranch targetBranch : String) : List Action :=
  Action.runGit (pushArgs r.remoteName currentBranch targetBranch) ::
    (if env.pushResult.exitCode = 0 then urlPhase env currentBranch targetBranch
     else [Action.showError (pushFailedMsg env.pushResult.exitCode)])

/-- Step 6, merge part (src/extension.js lines 334-359): merge the remote
target; on a non-zero exit inspect `stderr || stdout` for the conflict
markers, then the divergent-branches marker, else report a generic merge
failure; each of these ends the flow. -/
def mergePhase (env : Env) (r : Remote) (currentBranch targetBranch : String) : List Action :=
  Action.runGit ["merge", r.remoteName ++ "/" ++ targetBranch] ::
    (if env.mergeResult.exitCode = 0 then pushPhase env r currentBranch targetBranch
     else
       if strContains (mergeErrorOutput env.mergeResult) "Merge conflict"
          || strContains (mergeErrorOutput env.mergeResult) "Automatic merge failed; fix conflicts and then commit the result." then
         [Action.showError conflictMsg]
       else if strContains (mergeErrorOutput env.mergeResult) "fatal: Need to specify how to reconcile divergent branches." then
         [Action.showError divergentMsg]
       else
         [Action.showError (mergeFailedMsg (r.remoteName ++ "/" ++ targetBranch))])

/-- Step 6, fetch part (src/extension.js lines 325-332): fetch the remote;
a non-zero exit ends the flow with an error notification. -/
def fetchPhase (env : Env) (r : Remote) (currentBranch targetBranch : String) : List Action :=
  Action.runGit ["fetch", r.remoteName] ::
    (if env.fetchResult.exitCode = 0 then mergePhase env r currentBranch targetBranch
     else [Action.showError "Git fetch from origin failed. Check Output channel for details."])

/-- Step 4 (src/extension.js lines 316-318 via `getTargetBranch`): run
`git remote show`; when its answer is unusable also run `git branch -r`;
an error from target resolution is caught at the top level. -/
def targetPhase (env : Env) (r : Remote) (currentBranch : String) : List Action :=
  Action.runGit ["remote", "show", r.remoteName] ::
    ((if (headAttempt env.remoteShowResult).isSome then [] else [Action.runGit ["branch", "-r"]]) ++
     match getTargetBranch env.remoteShowResult env.branchRResult env.targetPick with
     | Except.ok t => fetchPhase env r currentBranch t
     | Except.error e => [Action.showError (failMsg e)])

/-- Step 3 (src/extension.js lines 312-314 via `getOrigin`): read the
config and resolve the remote; an error is caught at the top level. -/
def originPhase (env : Env) (currentBranch : String) : List Action :=
  Action.readGitConfig ::
    match getOrigin env.originRemotes env.allRemotes env.originPick with
    | Except.ok r => targetPhase env r currentBranch
    | Except.error e => [Action.showError (failMsg e)]

/-- Step 2 (src/extension.js lines 302-310): check that `.git` exists under
the workspace root. -/
def repoPhase (env : Env) (currentBranch : String) : List Action :=
  Action.checkDotGit ::
    (if env.dotGitExists then originPhase env currentBranch
     else [Action.showError "Current workspace is not a Git repository."])

/-- The two actions every invocation starts with (src/extension.js
lines 261 and 295): the start notification and the current-branch query. -/
def startTrace : List Action :=
  [Action.showInfo "Starting GitLab MR Flow...",
   Action.runGit ["branch", "--show-current"]]

/-- The command handler of `gitlab-mr-flow.createMergeRequest`
(src/extension.js lines 258-443) on its repository-handle path: the ordered
list of observable actions. Step 0 (current-branch query and `feat` naming
check) runs before everything else; an error from `getCurrentBranch`
escapes the handler (it is thrown outside the try block), ending the
trace. -/
def workflow (env : Env) : List Action :=
  startTrace ++
    match getCurrentBranch env.currentBranchResult with
    | Except.error _ => []
    | Except.ok currentBranch =>
        if startsWithStr "feat" currentBranch then repoPhase env currentBranch
        else [Action.showError rejectMsg]

/-- The fixed action prefix of every invocation that passes the naming
check, the `.git` check, remote resolution, target resolution and the fetch:
everything before the merge command. -/
def resolvedTracePre (env : Env) (r : Remote) : List Action :=
  startTrace ++
    [Action.checkDotGit, Action.readGitConfig, Action.runGit ["remote", "show", r.remoteName]] ++
    (if (headAttempt env.remoteShowResult).isSome then [] else [Action.runGit ["branch", "-r"]]) ++
    [Action.runGit ["fetch", r.remoteName]]

/-- The URL-opening and branch-checkout actions of a trace, in order. -/
def keyEvents (tr : List Action) : List Action :=
  tr.filter (fun a => a.isOpenUrl || isGitVerb "checkout" a)

/-- A fully successful scenario: `feat/login` checked out, one `origin`
entry in the config, an advertised HEAD branch `main`, clean fetch, merge
and push, an MR URL in the push stderr, and a clean checkout. -/
def baseEnv : Env := {
  currentBranchResult := ⟨"feat/login", "", 0⟩
  dotGitExists := true
  originRemotes := [⟨"origin", "https://example.com/group/proj.git"⟩]
  allRemotes := []
  originPick := none
  remoteShowResult := ⟨"* remote origin\n  HEAD branch: main\n", "", 0⟩
  branchRResult := ⟨"  origin/main\n  origin/feat/login\n", "", 0⟩
  targetPick := none
  fetchResult := ⟨"", "", 0⟩
  mergeResult := ⟨"Already up to date.", "", 0⟩
  pushResult := ⟨"", "remote: https://example.com/group/proj/-/merge_requests/42\nremote:\n", 0⟩
  checkoutResult := ⟨"", "", 0⟩
  openOk := true }

/-- The successful scenario on a branch starting with `fix`. -/
def envFix : Env := { baseEnv with currentBranchResult := ⟨"fix/bug-1", "", 0⟩ }

/-- The successful scenario on a branch starting with neither accepted
prefix of the specification. -/
def envChore : Env := { baseEnv with currentBranchResult := ⟨"chore/x", "", 0⟩ }

/-- The successful scenario with a push output carrying no MR URL. -/
def envNoUrl : Env := { baseEnv with pushResult := ⟨"Everything up-to-date", "", 0⟩ }

/-- A merge failure whose conflict marker is in stdout while stderr is a
nonempty unrelated diagnostic. -/
def envConflictStdout : Env :=
  { baseEnv with mergeResult :=
      ⟨"Automatic merge failed; fix conflicts and then commit the result.",
       "error: could not apply changes", 1⟩ }

/-- First of two same-named `origin` config entries. -/
def remoteA : Remote := ⟨"origin", "https://gitlab.example.com/team/alpha.git"⟩

/-- Second of two same-named `origin` config entries. -/
def remoteB : Remote := ⟨"origin", "https://gitlab.example.com/team/beta.git"⟩

/-- A `git branch -r` listing whose branches all live under a remote named
`upstream`. -/
def upstreamBranchR : CmdResult := ⟨"  upstream/main\n  upstream/dev", "", 0⟩

/- ------------------------------------------------------------------ -/
/- Shared lemmas. -/
/- ------------------------------------------------------------------ -/

/-- On a resolved invocation up to a successful fetch, the trace is the
fixed prefix followed by the merge phase. -/
theorem workflow_resolved (env : Env) (b t : String) (r : Remote)
    (hb : getCurrentBranch env.currentBranchResult = Except.ok b)
    (hfeat : startsWithStr "feat" b = true)
    (hgit : env.dotGitExists = true)
    (ho : getOrigin env.originRemotes env.allRemotes env.originPick = Except.ok r)
    (ht : getTargetBranch env.remoteShowResult env.branchRResult env.targetPick = Except.ok t)
    (hf : env.fetchResult.exitCode = 0) :
    workflow env = resolvedTracePre env r ++ mergePhase env r b t := by
  unfold workflow repoPhase originPhase targetPhase fetchPhase resolvedTracePre
  rw [hb, ho, ht]
  simp [hfeat, hgit, hf]

/-- A current branch failing the `feat` prefix check ends the invocation
with the rejection notification, right after the branch query. -/
theorem workflow_rejected (env : Env) (b : String)
    (hb : getCurrentBranch env.currentBranchResult = Except.ok b)
    (hfeat : startsWithStr "feat" b = false) :
    workflow env = startTrace ++ [Action.showError rejectMsg] := by
  unfold workflow
  rw [hb]
  simp [hfeat]

/-- The fixed prefix of a resolved invocation opens no URL and checks out
no branch. -/
theorem keyEvents_pre (env : Env) (r : Remote) :
    keyEvents (resolvedTracePre env r) = [] := by
  unfold keyEvents resolvedTracePre startTrace
  cases headAttempt env.remoteShowResult <;> simp [Action.isOpenUrl, isGitVerb]

/-- The fixed prefix of a resolved invocation issues no push command. -/
theorem pushFilter_pre (env : Env) (r : Remote) :
    (resolvedTracePre env r).filter (isGitVerb "push") = [] := by
  unfold resolvedTracePre startTrace
  cases headAttempt env.remoteShowResult <;> simp [isGitVerb]

/-- The URL phase issues no push command. -/
theorem pushFilter_urlPhase (env : Env) (b t : String) :
    (urlPhase env b t).filter (isGitVerb "push") = [] := by
  unfold urlPhase checkoutPhase
  cases findMrUrl (env.pushResult.stdout ++ "\n" ++ env.pushResult.stderr) <;>
    cases getOrigin env.originRemotes env.allRemotes env.originPick <;>
      cases env.openOk <;>
        by_cases hc : env.checkoutResult.exitCode = 0 <;>
          simp [hc, isGitVerb]

/-- A branch name starting with `fix` never starts with `feat`. -/
theorem starts_fix_not_feat (b : String) (h : startsWithStr "fix" b = true) :
    startsWithStr "feat" b = false := by
  unfold startsWithStr at h ⊢
  rw [show ("fix".data) = ['f', 'i', 'x'] from by decide] at h
  rw [show ("feat".data) = ['f', 'e', 'a', 't'] from rfl]
  match hb : b.data with
  | [] => rw [hb] at h; simp [starts] at h
  | [c0] => rw [hb] at h; simp [starts] at h
  | c0 :: c1 :: rest =>
    rw [hb] at h
    simp only [starts, Bool.and_eq_true, beq_iff_eq] at h
    obtain ⟨h0, h1, _⟩ := h
    simp [starts, ← h1]

/- ------------------------------------------------------------------ -/
/- Claim theorems. -/
/- ------------------------------------------------------------------ -/

/-- Claim C1, counterexample. On the branch `chore/x` (starting with neither
`feat` nor `fix`) the workflow indeed issues no merge, push or checkout, but
it never attempts to open any URL either: its trace is exactly the start
notification, the branch query, and the rejection error. This refutes the
claim that its only external action is an attempt to open the remote's
merge-request listing URL. -/
theorem c1_counterexample :
    (workflow envChore).filter (fun a => a.isOpenUrl) = []
    ∧ workflow envChore = startTrace ++ [Action.showError rejectMsg] := by
  refine ⟨by decide, by decide⟩

/-- Claim C1, amended. For every current branch name that does not start
with `feat` (in particular every name starting with neither `feat` nor
`fix`), the workflow issues no merge, push or checkout command and opens no
URL: after the current-branch query its only further action is the
rejection error notification. -/
theorem c1_reject_no_actions (env : Env) (b : String)
    (hb : getCurrentBranch env.currentBranchResult = Except.ok b)
    (hfeat : startsWithStr "feat" b = false) :
    workflow env = startTrace ++ [Action.showError rejectMsg]
    ∧ (workflow env).filter
        (fun a => isGitVerb "merge" a || isGitVerb "push" a
          || isGitVerb "checkout" a || a.isOpenUrl) = [] := by
  have h := workflow_rejected env b hb hfeat
  refine ⟨h, ?_⟩
  rw [h]
  decide

/-- Claim C1, witness of the amended theorem at the branch `main`. -/
theorem c1_witness :
    workflow { baseEnv with currentBranchResult := ⟨"main", "", 0⟩ } =
      startTrace ++ [Action.showError rejectMsg]
    ∧ (workflow { baseEnv with currentBranchResult := ⟨"main", "", 0⟩ }).filter
        (fun a => isGitVerb "merge" a || isGitVerb "push" a
          || isGitVerb "checkout" a || a.isOpenUrl) = [] :=
  c1_reject_no_actions { baseEnv with currentBranchResult := ⟨"main", "", 0⟩ }
    "main" rfl rfl

/-- Claim C2, counterexample. On the branch `fix/bug-1`, in an environment
where every later step would succeed, the naming check rejects the branch:
the automated flow (fetch, merge, push) never starts. This refutes the claim
that the allow-list is { feat, fix }. -/
theorem c2_counterexample :
    workflow envFix = startTrace ++ [Action.showError rejectMsg]
    ∧ (workflow envFix).filter
        (fun a => isGitVerb "fetch" a || isGitVerb "merge" a || isGitVerb "push" a) = [] := by
  refine ⟨by decide, by decide⟩

/-- Claim C2, amended. Every current branch name starting with `fix` is
rejected by the naming check (the allow-list is exactly { feat }): the
workflow shows the feat-prefix rejection error and issues no fetch, merge or
push command. -/
theorem c2_fix_rejected (env : Env) (b : String)
    (hb : getCurrentBranch env.currentBranchResult = Except.ok b)
    (hfix : startsWithStr "fix" b = true) :
    workflow env = startTrace ++ [Action.showError rejectMsg]
    ∧ (workflow env).filter
        (fun a => isGitVerb "fetch" a || isGitVerb "merge" a || isGitVerb "push" a) = [] := by
  have h := workflow_rejected env b hb (starts_fix_not_feat b hfix)
  refine ⟨h, ?_⟩
  rw [h]
  decide

/-- Claim C2, witness of the amended theorem at the branch `fixup/crash-7`. -/
theorem c2_witness :
    workflow { baseEnv with currentBranchResult := ⟨"fixup/crash-7", "", 0⟩ } =
      startTrace ++ [Action.showError rejectMsg]
    ∧ (workflow { baseEnv with currentBranchResult := ⟨"fixup/crash-7", "", 0⟩ }).filter
        (fun a => isGitVerb "fetch" a || isGitVerb "merge" a || isGitVerb "push" a) = [] :=
  c2_fix_rejected { baseEnv with currentBranchResult := ⟨"fixup/crash-7", "", 0⟩ }
    "fixup/crash-7" rfl rfl

/-- Claim C3. With two same-named `origin` entries (a malformed or
multi-value config), remote resolution does present both entries as choices
and does abort on cancellation, but when the user picks the second entry it
returns the FIRST one: the selected quick-pick item is looked up again by
its (non-unique) label. The code evaluated at the failing input. -/
theorem c3_pick_ignored_for_same_name :
    (originChoices [remoteA, remoteB]).length = 2
    ∧ [remoteA, remoteB].get? 1 = some remoteB
    ∧ remoteA ≠ remoteB
    ∧ getOrigin [remoteA, remoteB] [] (some 1) = Except.ok remoteA
    ∧ getOrigin [remoteA, remoteB] [] none =
        Except.error "Origin selection cancelled by user." := by
  refine ⟨rfl, rfl, by decide, rfl, rfl⟩

/-- Claim C4. A merge result with exit code 1 whose stdout contains the
conflict marker while stderr is a nonempty unrelated diagnostic: the code
inspects only `stderr || stdout` (stderr, since nonempty), misses the
marker, and shows the generic merge-failure notification instead of the
conflict notification; no push is issued. The code evaluated at the failing
input. -/
theorem c4_conflict_in_stdout_missed :
    strContains envConflictStdout.mergeResult.stdout
        "Automatic merge failed; fix conflicts and then commit the result." = true
    ∧ envConflictStdout.mergeResult.exitCode ≠ 0
    ∧ Action.showError conflictMsg ∉ workflow envConflictStdout
    ∧ Action.showError (mergeFailedMsg "origin/main") ∈ workflow envConflictStdout
    ∧ (workflow envConflictStdout).filter (isGitVerb "push") = [] := by
  refine ⟨rfl, by decide, by decide, by decide, by decide⟩

/-- Claim C5. On a resolved invocation with successful fetch, clean merge
and successful push whose combined stdout+stderr output matches the MR URL
pattern (leftmost match `url`), the workflow opens exactly that URL and then
checks out the previously resolved target branch: the URL-open and checkout
actions of the trace are exactly these two, in this order. -/
theorem c5_url_found_opens_and_checks_out (env : Env) (b t url : String) (r : Remote)
    (hb : getCurrentBranch env.currentBranchResult = Except.ok b)
    (hfeat : startsWithStr "feat" b = true)
    (hgit : env.dotGitExists = true)
    (ho : getOrigin env.originRemotes env.allRemotes env.originPick = Except.ok r)
    (ht : getTargetBranch env.remoteShowResult env.branchRResult env.targetPick = Except.ok t)
    (hf : env.fetchResult.exitCode = 0)
    (hm : env.mergeResult.exitCode = 0)
    (hp : env.pushResult.exitCode = 0)
    (hu : findMrUrl (env.pushResult.stdout ++ "\n" ++ env.pushResult.stderr) = some url) :
    keyEvents (workflow env) = [Action.openExternal url, Action.runGit ["checkout", t]] := by
  rw [workflow_resolved env b t r hb hfeat hgit ho ht hf]
  unfold keyEvents
  rw [List.filter_append]
  have h1 := keyEvents_pre env r
  unfold keyEvents at h1
  rw [h1]
  unfold mergePhase pushPhase urlPhase checkoutPhase
  rw [hu]
  simp only [hm, hp, if_true]
  by_cases hc : env.checkoutResult.exitCode = 0 <;>
    cases hok : env.openOk <;>
      simp [hc, hok, Action.isOpenUrl, isGitVerb, pushArgs]

/-- Claim C5, witness: the fully successful scenario opens the URL found in
the push output and then checks out `main`. -/
theorem c5_witness :
    keyEvents (workflow baseEnv) =
      [Action.openExternal "https://example.com/group/proj/-/merge_requests/42",
       Action.runGit ["checkout", "main"]] :=
  c5_url_found_opens_and_checks_out baseEnv "feat/login" "main"
    "https://example.com/group/proj/-/merge_requests/42"
    ⟨"origin", "https://example.com/group/proj.git"⟩
    rfl rfl rfl rfl rfl rfl rfl rfl rfl

/-- Claim C6. On a resolved invocation with successful fetch, clean merge
and successful push whose combined output contains no MR URL match, given a
resolved remote URL ending in `.git`, the workflow opens exactly the URL
obtained by stripping the trailing `.git` and appending the merge-requests
listing suffix, and issues no checkout afterwards: the URL-open and checkout
actions of the trace are exactly that single open. -/
theorem c6_fallback_url_no_checkout (env : Env) (b t : String) (r : Remote)
    (hb : getCurrentBranch env.currentBranchResult = Except.ok b)
    (hfeat : startsWithStr "feat" b = true)
    (hgit : env.dotGitExists = true)
    (ho : getOrigin env.originRemotes env.allRemotes env.originPick = Except.ok r)
    (ht : getTargetBranch env.remoteShowResult env.branchRResult env.targetPick = Except.ok t)
    (hf : env.fetchResult.exitCode = 0)
    (hm : env.mergeResult.exitCode = 0)
    (hp : env.pushResult.exitCode = 0)
    (hu : findMrUrl (env.pushResult.stdout ++ "\n" ++ env.pushResult.stderr) = none)
    (hg : endsStr ".git" r.remoteUrl = true) :
    keyEvents (workflow env) = [Action.openExternal (constructMrUrl r.remoteUrl)]
    ∧ constructMrUrl r.remoteUrl =
        String.mk (r.remoteUrl.data.take (r.remoteUrl.data.length - 4)) ++ "/-/merge_requests" := by
  constructor
  · rw [workflow_resolved env b t r hb hfeat hgit ho ht hf]
    unfold keyEvents
    rw [List.filter_append]
    have h1 := keyEvents_pre env r
    unfold keyEvents at h1
    rw [h1]
    unfold mergePhase pushPhase urlPhase
    rw [hu, ho]
    simp only [hm, hp, if_true]
    cases hok : env.openOk <;>
      simp [hok, Action.isOpenUrl, isGitVerb, pushArgs]
  · unfold constructMrUrl
    rw [hg]
    simp

/-- Claim C6, witness: with a push output carrying no URL, the workflow
opens the listing URL constructed from the remote URL and performs no
checkout. -/
theorem c6_witness :
    keyEvents (workflow envNoUrl) =
      [Action.openExternal "https://example.com/group/proj/-/merge_requests"]
    ∧ constructMrUrl "https://example.com/group/proj.git" =
        String.mk (("https://example.com/group/proj.git" : String).data.take
          (("https://example.com/group/proj.git" : String).data.length - 4)) ++ "/-/merge_requests" :=
  c6_fallback_url_no_checkout envNoUrl "feat/login" "main"
    ⟨"origin", "https://example.com/group/proj.git"⟩
    rfl rfl rfl rfl rfl rfl rfl rfl rfl rfl

/-- Claim C7. Every invocation that reaches the push step issues exactly one
push command, whose argument list is `pushArgs` of the resolved remote,
current branch and target branch; its `-o` options are exactly the four
server-side options: merge-request creation, the target branch, keeping the
source branch, and the current branch name as title. -/
theorem c7_push_options (env : Env) (b t : String) (r : Remote)
    (hb : getCurrentBranch env.currentBranchResult = Except.ok b)
    (hfeat : startsWithStr "feat" b = true)
    (hgit : env.dotGitExists = true)
    (ho : getOrigin env.originRemotes env.allRemotes env.originPick = Except.ok r)
    (ht : getTargetBranch env.remoteShowResult env.branchRResult env.targetPick = Except.ok t)
    (hf : env.fetchResult.exitCode = 0)
    (hm : env.mergeResult.exitCode = 0)
    (hr : (r.remoteName == "-o") = false)
    (hcb : (b == "-o") = false) :
    (workflow env).filter (isGitVerb "push") = [Action.runGit (pushArgs r.remoteName b t)]
    ∧ extractPushOptions (pushArgs r.remoteName b t) =
        ["merge_request.create", "merge_request.target=" ++ t,
         "merge_request.remove_source_branch=false", "merge_request.title=" ++ b] := by
  constructor
  · rw [workflow_resolved env b t r hb hfeat hgit ho ht hf]
    rw [List.filter_append, pushFilter_pre]
    unfold mergePhase
    simp only [hm, if_true]
    rw [List.nil_append, List.filter_cons]
    unfold pushPhase
    have hhd : isGitVerb "push" (Action.runGit (pushArgs r.remoteName b t)) = true := rfl
    by_cases hpz : env.pushResult.exitCode = 0 <;>
      simp [hpz, hhd, List.filter_cons, pushFilter_urlPhase env b t, isGitVerb] <;> rfl
  · simp [extractPushOptions, pushArgs, hr, hcb]

/-- Claim C7, witness in the fully successful scenario. -/
theorem c7_witness :
    (workflow baseEnv).filter (isGitVerb "push") =
      [Action.runGit (pushArgs "origin" "feat/login" "main")]
    ∧ extractPushOptions (pushArgs "origin" "feat/login" "main") =
        ["merge_request.create", "merge_request.target=" ++ "main",
         "merge_request.remove_source_branch=false", "merge_request.title=" ++ "feat/login"] :=
  c7_push_options baseEnv "feat/login" "main" ⟨"origin", "https://example.com/group/proj.git"⟩
    rfl rfl rfl rfl rfl rfl rfl rfl rfl

/-- Claim C8. Target-branch resolution returns the remote's advertised HEAD
branch whenever `git remote show` succeeded with output whose captured HEAD
branch differs from the sentinel; a captured value equal to `(unknown)` is
treated as absent: the first attempt yields nothing and resolution is
exactly the fallback over the remote branch listing and the user prompt. -/
theorem c8_head_then_fallback (remoteShow branchR : CmdResult) (pick : Option Nat) :
    (∀ br : String, remoteShow.exitCode = 0 → remoteShow.stdout ≠ "" →
        findHeadBranch remoteShow.stdout = some br → br ≠ "(unknown)" →
        getTargetBranch remoteShow branchR pick = Except.ok br)
    ∧ (findHeadBranch remoteShow.stdout = some "(unknown)" →
        headAttempt remoteShow = none
        ∧ getTargetBranch remoteShow branchR pick = fallbackTarget branchR pick) := by
  constructor
  · intro br hz hne hfind hunk
    unfold getTargetBranch headAttempt
    rw [hfind]
    simp [hz, hne, hunk]
  · intro hfind
    have hnone : headAttempt remoteShow = none := by
      unfold headAttempt
      rw [hfind]
      simp
    exact ⟨hnone, by unfold getTargetBranch; rw [hnone]⟩

/-- Claim C8, witness: a `HEAD branch: main` report resolves to `main`
without the fallback, and a `HEAD branch: (unknown)` report yields nothing
and sends resolution to the fallback. -/
theorem c8_witness :
    getTargetBranch ⟨"  HEAD branch: main\n", "", 0⟩ baseEnv.branchRResult none = Except.ok "main"
    ∧ (headAttempt ⟨"  HEAD branch: (unknown)\n", "", 0⟩ = none
       ∧ getTargetBranch ⟨"  HEAD branch: (unknown)\n", "", 0⟩ baseEnv.branchRResult none =
           fallbackTarget baseEnv.branchRResult none) :=
  ⟨(c8_head_then_fallback ⟨"  HEAD branch: main\n", "", 0⟩ baseEnv.branchRResult none).1
      "main" rfl (by decide) rfl (by decide),
   (c8_head_then_fallback ⟨"  HEAD branch: (unknown)\n", "", 0⟩ baseEnv.branchRResult none).2 rfl⟩

/-- Claim C9, counterexample. In the fully successful scenario the
current-branch query is the trace's second action and the repository
validation has not happened by then: the query is issued before the
validation, refuting the claimed step (b) before step (e) ordering. -/
theorem c9_counterexample :
    (workflow baseEnv).get? 1 = some (Action.runGit ["branch", "--show-current"])
    ∧ Action.checkDotGit ∉ (workflow baseEnv).take 2
    ∧ (workflow baseEnv).get? 2 = some Action.checkDotGit := by
  refine ⟨by decide, by decide, by decide⟩

/-- Claim C9, amended. The workflow resolves the current branch and checks
its naming convention strictly BEFORE validating that the root is a git
repository: on every invocation whose branch passes the naming check, the
first three actions are the start notification, the current-branch query,
and only then the `.git` validation. -/
theorem c9_branch_check_before_validation (env : Env) (b : String)
    (hb : getCurrentBranch env.currentBranchResult = Except.ok b)
    (hfeat : startsWithStr "feat" b = true) :
    (workflow env).take 3 =
      [Action.showInfo "Starting GitLab MR Flow...",
       Action.runGit ["branch", "--show-current"],
       Action.checkDotGit] := by
  unfold workflow repoPhase startTrace
  rw [hb]
  simp [hfeat]

/-- Claim C9, witness of the amended theorem in the successful scenario. -/
theorem c9_witness :
    (workflow baseEnv).take 3 =
      [Action.showInfo "Starting GitLab MR Flow...",
       Action.runGit ["branch", "--show-current"],
       Action.checkDotGit] :=
  c9_branch_check_before_validation baseEnv "feat/login" rfl rfl

/-- Claim C10. The fallback candidate list is built only from listing lines
that (after leading whitespace) start with the literal `origin/` (lines
containing an arrow are dropped by construction), with no reference to the
selected remote's name: whenever the `remote show` attempt yields nothing
and every line of a successful nonempty `git branch -r` listing fails the
`origin/` test, the candidate list is empty and the fallback raises the
no-remote-branches error, re-thrown at the function boundary as the generic
target-resolution failure - even though the listing shows branches. -/
theorem c10_fallback_only_origin_lines (remoteShow branchR : CmdResult) (pick : Option Nat)
    (hhead : headAttempt remoteShow = none)
    (hz : branchR.exitCode = 0)
    (hne : branchR.stdout ≠ "")
    (hlines : ∀ l ∈ splitLines branchR.stdout,
        starts ("origin/".data) (l.data.dropWhile isWs) = false) :
    parseRemoteBranches branchR.stdout = []
    ∧ fallbackTargetRaw branchR pick = Except.error "No remote branches found for origin."
    ∧ getTargetBranch remoteShow branchR pick =
        Except.error "Failed to determine target branch." := by
  have hempty : parseRemoteBranches branchR.stdout = [] := by
    unfold parseRemoteBranches
    rw [List.filterMap_eq_nil_iff]
    intro l hl
    simp [parseOriginLine, hlines l hl]
  have hraw : fallbackTargetRaw branchR pick = Except.error "No remote branches found for origin." := by
    unfold fallbackTargetRaw
    rw [if_pos ⟨hz, hne⟩, hempty]
    simp
  refine ⟨hempty, hraw, ?_⟩
  unfold getTargetBranch
  rw [hhead]
  unfold fallbackTarget
  rw [hraw]
  rfl

/-- Claim C10, witness: with a failed `remote show` and a listing whose
branches all live under `upstream/`, the candidate list is empty and
resolution fails although the listing is nonempty. -/
theorem c10_witness :
    parseRemoteBranches upstreamBranchR.stdout = []
    ∧ fallbackTargetRaw upstreamBranchR none =
        Except.error "No remote branches found for origin."
    ∧ getTargetBranch ⟨"", "", 128⟩ upstreamBranchR none =
        Except.error "Failed to determine target branch." :=
  c10_fallback_only_origin_lines ⟨"", "", 128⟩ upstreamBranchR none
    rfl rfl (by decide) (by decide)

end MrFlow
